import Mathlib

/-!
# Verification of the quiz viewer's state controller (src/app.rs)

Shallow embedding of the flashcard quiz viewer. The application state
(`MyApp`) and the per-frame `update` step are translated from `src/app.rs`.

Modelling choices:

* `f32 pixels_per_point` is modelled as `ℚ`; the only arithmetic on it is
  adding/subtracting the constant step `0.1` and clamping with `max`, whose
  floor behaviour does not depend on rounding.
* `usize question_nr` is modelled as `ℕ`, with `saturating_sub(1)` being
  truncated subtraction and `saturating_add(1)` clamped to `2^64 - 1`.
* The mpsc channel is not part of the state; a pending delivery is an
  explicit `Option Payload` input to the redraw step.  `Payload.invalid`
  stands for delivered text that is not syntactically valid JSON,
  `Payload.json j` for text whose JSON value is `j`.
* `serde_json::from_str::<Vec<Question>>` is embedded at the JSON-value
  level (`parseQuiz`) following serde's derived `Deserialize` semantics for
  the `Question` struct: a record is a JSON object whose fields named
  `question`, `hint1`, `hint2`, `answer` must each appear exactly once with
  a string value (a repeated occurrence of one of them is a
  "duplicate field" error, a non-string value is a type error, a missing
  one is a "missing field" error), while fields with any other name are
  ignored; serde also accepts a struct written as a JSON array of its
  fields in declaration order, here an array of exactly four strings.
* UI clicks and the `DragValue` edit are inputs to the redraw step
  (`Events`); `egui` widgets inside the central panel exist only when the
  current index points at a valid element, exactly as in the source, so
  their events have no effect otherwise.
-/

/-- JSON values, the output of `serde_json` tokenisation. -/
inductive Json where
  | null : Json
  | bool (b : Bool) : Json
  | num (n : Int) : Json
  | str (s : String) : Json
  | arr (xs : List Json) : Json
  | obj (kvs : List (String × Json)) : Json

/-- `struct Question` (src/app.rs lines 6-12): four string fields. -/
structure Question where
  question : String
  hint1 : String
  hint2 : String
  answer : String
deriving DecidableEq

/-- `struct Show` (src/app.rs lines 14-20): four visibility flags. -/
structure Show where
  question : Bool
  hint1 : Bool
  hint2 : Bool
  answer : Bool
deriving DecidableEq

/-- `Show::default()`: all four flags false. -/
def showDefault : Show := ⟨false, false, false, false⟩

/-- `struct MyApp` (src/app.rs lines 25-33), without the `#[serde(skip)]`
channel, which is modelled as the redraw step's message input. -/
structure MyApp where
  pixels_per_point : ℚ
  questions : Option (List Question)
  question_nr : ℕ
  prev_question_nr : ℕ
  showFlags : Show
deriving DecidableEq

/-- `MyApp::default()` (src/app.rs lines 35-46). -/
def defaultMyApp : MyApp := ⟨4, none, 0, 0, showDefault⟩

/-! ## Deserialization of `Vec<Question>` from a JSON value -/

/-- Accumulator of the derived map visitor for `Question`: each field is
`none` until its key has been seen. -/
structure QAcc where
  question : Option String := none
  hint1 : Option String := none
  hint2 : Option String := none
  answer : Option String := none

/-- One key/value entry of the visited map.  A key naming one of the four
fields must not have been seen before (else `duplicate field`) and its
value must be a string (else a type error); any other key is skipped
(serde ignores unknown fields: `Question` has no `deny_unknown_fields`). -/
def stepKV (acc : QAcc) (kv : String × Json) : Option QAcc :=
  if kv.1 = "question" then
    match acc.question, kv.2 with
    | none, Json.str s => some { acc with question := some s }
    | _, _ => none
  else if kv.1 = "hint1" then
    match acc.hint1, kv.2 with
    | none, Json.str s => some { acc with hint1 := some s }
    | _, _ => none
  else if kv.1 = "hint2" then
    match acc.hint2, kv.2 with
    | none, Json.str s => some { acc with hint2 := some s }
    | _, _ => none
  else if kv.1 = "answer" then
    match acc.answer, kv.2 with
    | none, Json.str s => some { acc with answer := some s }
    | _, _ => none
  else
    some acc

/-- Visit all entries of the map in order. -/
def foldKVs (acc : QAcc) : List (String × Json) → Option QAcc
  | [] => some acc
  | kv :: rest =>
    match stepKV acc kv with
    | some acc2 => foldKVs acc2 rest
    | none => none

/-- Deserializing one `String` field value. -/
def strField : Json → Option String
  | Json.str s => some s
  | _ => none

/-- serde's `visit_seq` for the struct: exactly four elements, each a
string, taken in field declaration order (fewer is an
`invalid length` error, more is a trailing-element error). -/
def parseSeq (vs : List Json) : Option Question :=
  match vs with
  | [v1, v2, v3, v4] =>
    match strField v1, strField v2, strField v3, strField v4 with
    | some q, some h1, some h2, some a => some ⟨q, h1, h2, a⟩
    | _, _, _, _ => none
  | _ => none

/-- Derived `Deserialize` for `Question` at the JSON-value level: an object
is visited entry by entry and every field must end up present
(else `missing field`); an array is visited by `visit_seq`; anything else
is a type error. -/
def parseQuestion : Json → Option Question
  | Json.obj kvs =>
    match foldKVs {} kvs with
    | some ⟨some q, some h1, some h2, some a⟩ => some ⟨q, h1, h2, a⟩
    | _ => none
  | Json.arr vs => parseSeq vs
  | _ => none

/-- Elementwise deserialization of the list; any failing element fails the
whole payload. -/
def parseQuestionList : List Json → Option (List Question)
  | [] => some []
  | x :: xs =>
    match parseQuestion x, parseQuestionList xs with
    | some q, some qs => some (q :: qs)
    | _, _ => none

/-- `serde_json::from_str::<Vec<Question>>` on a tokenised JSON value: the
top level must be an array. -/
def parseQuiz : Json → Option (List Question)
  | Json.arr xs => parseQuestionList xs
  | _ => none

/-- A delivered text: either not valid JSON at all, or a JSON value. -/
inductive Payload where
  | invalid : Payload
  | json (j : Json) : Payload

/-- Parsing a delivered text (src/app.rs line 80). -/
def parsePayload : Payload → Option (List Question)
  | Payload.invalid => none
  | Payload.json j => parseQuiz j

/-- The quiz-acceptance test of src/app.rs lines 80-84: the payload parses
and the parsed list has length at least 1. -/
def acceptsQuiz (j : Json) : Bool :=
  match parseQuiz j with
  | some qs => decide (1 ≤ qs.length)
  | none => false

/-! ## The redraw step -/

/-- The UI interactions that can reach `update` in one frame: the five
button clicks, the four reveal toggles and a `DragValue` edit (the value
the user typed/dragged, before range clamping). -/
structure Events where
  scaleUp : Bool
  scaleDown : Bool
  prevClick : Bool
  nextClick : Bool
  dragSet : Option ℕ
  toggleQuestion : Bool
  toggleHint1 : Bool
  toggleHint2 : Bool
  toggleAnswer : Bool

/-- A frame with no user interaction. -/
def noEvents : Events := ⟨false, false, false, false, none, false, false, false, false⟩

/-- `usize::MAX`. -/
def usizeMax : ℕ := 2 ^ 64 - 1

/-- `usize::saturating_add(1)`. -/
def satAdd1 (n : ℕ) : ℕ := min (n + 1) usizeMax

/-- `usize::saturating_sub(1)`: truncated subtraction on `ℕ`. -/
def satSub1 (n : ℕ) : ℕ := n - 1

/-- src/app.rs lines 73-76: if the index changed since the last frame,
record it and hide all fields again. -/
def syncIndex (s : MyApp) : MyApp :=
  if s.question_nr ≠ s.prev_question_nr then
    { s with prev_question_nr := s.question_nr, showFlags := showDefault }
  else s

/-- src/app.rs lines 79-86: a pending delivery that parses to a list of at
least one question replaces the quiz and rewinds the index; anything else
changes nothing. -/
def processMsg (s : MyApp) (msg : Option Payload) : MyApp :=
  match msg with
  | none => s
  | some p =>
    match parsePayload p with
    | some qs => if 1 ≤ qs.length then { s with questions := some qs, question_nr := 0 } else s
    | none => s

/-- src/app.rs lines 90-92: `+` adds the step `0.1` to the scale. -/
def topBarUp (s : MyApp) (ev : Events) : MyApp :=
  if ev.scaleUp then { s with pixels_per_point := s.pixels_per_point + 1/10 } else s

/-- src/app.rs lines 93-95: `−` subtracts the step `0.1` from the scale
and clamps at the floor `0.1`. -/
def topBarDown (s : MyApp) (ev : Events) : MyApp :=
  if ev.scaleDown then
    { s with pixels_per_point := max (s.pixels_per_point - 1/10) (1/10) }
  else s

/-- src/app.rs lines 88-104, the top bar, in source order: `+`, then `−`;
the open-quiz button only spawns the background picker and touches no
state. -/
def topBar (s : MyApp) (ev : Events) : MyApp :=
  topBarDown (topBarUp s ev) ev

/-- src/app.rs lines 106-157, the central panel.  Everything in it exists
only when `questions.get(question_nr)` is a valid element.  In source
order: `<<` saturating-decrements the index, the `DragValue` (range
`0..=len`) sets it to the clamped edited value, `>>` saturating-increments
it, and each of the four buttons flips its reveal flag. -/
def centralPanel (s : MyApp) (ev : Events) : MyApp :=
  match s.questions with
  | some qs =>
    match qs.get? s.question_nr with
    | some _ =>
      let nr1 := if ev.prevClick then satSub1 s.question_nr else s.question_nr
      let nr2 := match ev.dragSet with
        | some v => min v qs.length
        | none => nr1
      let nr3 := if ev.nextClick then satAdd1 nr2 else nr2
      let sh0 := s.showFlags
      let sh1 := if ev.toggleQuestion then { sh0 with question := !sh0.question } else sh0
      let sh2 := if ev.toggleHint1 then { sh1 with hint1 := !sh1.hint1 } else sh1
      let sh3 := if ev.toggleHint2 then { sh2 with hint2 := !sh2.hint2 } else sh2
      let sh4 := if ev.toggleAnswer then { sh3 with answer := !sh3.answer } else sh3
      { s with question_nr := nr3, showFlags := sh4 }
    | none => s
  | none => s

/-- One invocation of `MyApp::update` (src/app.rs lines 71-158), in source
order: index sync, channel poll, top bar, central panel. -/
def redraw (s : MyApp) (msg : Option Payload) (ev : Events) : MyApp :=
  centralPanel (topBar (processMsg (syncIndex s) msg) ev) ev

/-- The record the central panel renders this frame, if any
(src/app.rs line 107). -/
def currentQuestion (s : MyApp) : Option Question :=
  s.questions.bind (fun qs => qs.get? s.question_nr)

/-- Text shown on the question row (src/app.rs lines 128-131): the field
when its flag is set, the empty placeholder otherwise; nothing when no
record is current. -/
def displayedQuestion (s : MyApp) : Option String :=
  (currentQuestion s).map (fun q => if s.showFlags.question then q.question else "")

/-- Text shown on the first hint row (src/app.rs lines 136-139). -/
def displayedHint1 (s : MyApp) : Option String :=
  (currentQuestion s).map (fun q => if s.showFlags.hint1 then q.hint1 else "")

/-- Text shown on the second hint row (src/app.rs lines 144-147). -/
def displayedHint2 (s : MyApp) : Option String :=
  (currentQuestion s).map (fun q => if s.showFlags.hint2 then q.hint2 else "")

/-- Text shown on the answer row (src/app.rs lines 152-155). -/
def displayedAnswer (s : MyApp) : Option String :=
  (currentQuestion s).map (fun q => if s.showFlags.answer then q.answer else "")

/-! ## Startup (`MyApp::new`) -/

/-- A persisted record as found in storage: `#[serde(default)]` on `MyApp`
lets every field be absent (restored from `MyApp::default()`); the channel
is `#[serde(skip)]` and never persisted. -/
structure PersistedApp where
  pixels_per_point : Option ℚ
  questions : Option (Option (List Question))
  question_nr : Option ℕ
  prev_question_nr : Option ℕ
  showFlags : Option Show

/-- `eframe::get_value` on a persisted record: each absent field is filled
from `MyApp::default()` (the container-level `#[serde(default)]`). -/
def getValueApp (p : PersistedApp) : MyApp :=
  ⟨p.pixels_per_point.getD defaultMyApp.pixels_per_point,
   p.questions.getD defaultMyApp.questions,
   p.question_nr.getD defaultMyApp.question_nr,
   p.prev_question_nr.getD defaultMyApp.prev_question_nr,
   p.showFlags.getD defaultMyApp.showFlags⟩

/-- `MyApp::new` (src/app.rs lines 49-61): with storage present, restore
(defaults for a record that fails to decode, modelled like absent storage)
and then force all reveal flags hidden; without storage, the default. -/
def myAppNew (storage : Option PersistedApp) : MyApp :=
  match storage with
  | some p => { getValueApp p with showFlags := showDefault }
  | none => defaultMyApp

/-! ## Concrete event frames -/

/-- Only the `>>` button is clicked. -/
def evNext : Events := ⟨false, false, false, true, none, false, false, false, false⟩

/-- Only the `<<` button is clicked. -/
def evPrev : Events := ⟨false, false, true, false, none, false, false, false, false⟩

/-- Only the `−` scale button is clicked. -/
def evScaleDown : Events := ⟨false, true, false, false, none, false, false, false, false⟩

/-- Only the question reveal toggle is clicked. -/
def evToggleQ : Events := ⟨false, false, false, false, none, true, false, false, false⟩

/-- Only the first hint reveal toggle is clicked. -/
def evToggleH1 : Events := ⟨false, false, false, false, none, false, true, false, false⟩

/-- Only the second hint reveal toggle is clicked. -/
def evToggleH2 : Events := ⟨false, false, false, false, none, false, false, true, false⟩

/-- Only the answer reveal toggle is clicked. -/
def evToggleA : Events := ⟨false, false, false, false, none, false, false, false, true⟩

/-- A frame in which only the `−` scale button is clicked. -/
def decFrame (s : MyApp) : MyApp := redraw s none evScaleDown

/-! ## The payload shape described by the specification

These definitions follow the specification's words (as amended), to be
compared with `acceptsQuiz`, which follows the source. -/

/-- A JSON value that is a text. -/
def isStr : Json → Bool
  | Json.str _ => true
  | _ => false

/-- The values carried by the entries of a record that bear a given field
name, in order. -/
def fieldValues (kvs : List (String × Json)) (name : String) : List Json :=
  (kvs.filter (fun kv => kv.1 = name)).map Prod.snd

/-- The record carries the named field exactly once, with a text value. -/
def exactlyOneText (kvs : List (String × Json)) (name : String) : Bool :=
  match fieldValues kvs name with
  | [v] => isStr v
  | _ => false

/-- The shape of one accepted record, in the specification's words: an
object carrying each of `question`, `hint1`, `hint2`, `answer` exactly
once with a text value (entries with any other name do not matter), or a
list of exactly four texts giving the fields in declaration order. -/
def recordShape : Json → Bool
  | Json.obj kvs =>
    exactlyOneText kvs "question" && exactlyOneText kvs "hint1" &&
    exactlyOneText kvs "hint2" && exactlyOneText kvs "answer"
  | Json.arr vs => decide (vs.length = 4) && vs.all isStr
  | _ => false

/-- The shape of an accepted payload: a list, with at least one element,
of records of the accepted shape. -/
def quizShape : Json → Bool
  | Json.arr xs => decide (1 ≤ xs.length) && xs.all recordShape
  | _ => false

/-- Expected final state of one visited field: a field already seen admits
no further occurrence, a field not yet seen needs exactly one remaining
occurrence carrying a text.  Used to characterise `foldKVs`. -/
def needName : Option String → List Json → Bool
  | some _, vs => vs.isEmpty
  | none, [v] => isStr v
  | none, _ => false

/-! ## Concrete fixtures -/

/-- A sample question record. -/
def qW : Question := ⟨"Q1", "H1", "H2", "A1"⟩

/-- A loaded quiz sitting at its only question, all fields hidden. -/
def appW0 : MyApp := ⟨4, some [qW], 0, 0, showDefault⟩

/-- A loaded quiz with the index one past the end (length 1). -/
def appW : MyApp := ⟨4, some [qW], 1, 1, showDefault⟩

/-- A state whose index moved since the last frame, everything revealed. -/
def appW1 : MyApp := ⟨4, some [qW], 1, 0, ⟨true, true, true, true⟩⟩

/-- A state at question 0 (recorded as previous) with the answer revealed. -/
def c1State : MyApp := ⟨4, some [qW], 0, 0, ⟨false, false, false, true⟩⟩

/-- A state whose index moved since the last frame, everything revealed. -/
def c3State : MyApp := ⟨4, some [qW], 1, 0, ⟨true, true, true, true⟩⟩

/-- A well-formed one-question payload. -/
def payloadJsonW : Json :=
  Json.arr [Json.obj [("question", Json.str "Q2"), ("hint1", Json.str "H2a"),
                      ("hint2", Json.str "H2b"), ("answer", Json.str "A2")]]

/-- The delivered text of `payloadJsonW`. -/
def payloadW : Payload := Payload.json payloadJsonW

/-- The quiz `payloadJsonW` parses to. -/
def quizW : List Question := [⟨"Q2", "H2a", "H2b", "A2"⟩]

/-- A delivered empty list. -/
def emptyPayload : Payload := Payload.json (Json.arr [])

/-- A record carrying the four named text fields plus one extra field. -/
def extraFieldJson : Json :=
  Json.arr [Json.obj [("question", Json.str "Q"), ("hint1", Json.str "H1"),
                      ("hint2", Json.str "H2"), ("answer", Json.str "A"),
                      ("bonus", Json.str "X")]]

/-! ## Step lemmas -/

theorem syncIndex_pixels (s : MyApp) : (syncIndex s).pixels_per_point = s.pixels_per_point := by
  unfold syncIndex; split <;> rfl

theorem syncIndex_questions (s : MyApp) : (syncIndex s).questions = s.questions := by
  unfold syncIndex; split <;> rfl

theorem syncIndex_question_nr (s : MyApp) : (syncIndex s).question_nr = s.question_nr := by
  unfold syncIndex; split <;> rfl

theorem syncIndex_of_eq {s : MyApp} (h : s.question_nr = s.prev_question_nr) :
    syncIndex s = s := by
  unfold syncIndex; rw [if_neg]; simp [h]

theorem syncIndex_of_ne {s : MyApp} (h : s.question_nr ≠ s.prev_question_nr) :
    syncIndex s = { s with prev_question_nr := s.question_nr, showFlags := showDefault } := by
  unfold syncIndex; rw [if_pos h]

theorem processMsg_none (s : MyApp) : processMsg s none = s := rfl

theorem processMsg_accepted {p : Payload} {qs : List Question} (s : MyApp)
    (hp : parsePayload p = some qs) (hlen : 1 ≤ qs.length) :
    processMsg s (some p) = { s with questions := some qs, question_nr := 0 } := by
  simp [processMsg, hp, hlen]

theorem processMsg_parse_none {p : Payload} (s : MyApp) (hp : parsePayload p = none) :
    processMsg s (some p) = s := by
  simp [processMsg, hp]

theorem processMsg_parse_nil {p : Payload} (s : MyApp) (hp : parsePayload p = some []) :
    processMsg s (some p) = s := by
  simp [processMsg, hp]

theorem processMsg_showFlags (s : MyApp) (msg : Option Payload) :
    (processMsg s msg).showFlags = s.showFlags := by
  unfold processMsg
  repeat' split
  all_goals rfl

theorem processMsg_prev (s : MyApp) (msg : Option Payload) :
    (processMsg s msg).prev_question_nr = s.prev_question_nr := by
  unfold processMsg
  repeat' split
  all_goals rfl

theorem processMsg_pixels (s : MyApp) (msg : Option Payload) :
    (processMsg s msg).pixels_per_point = s.pixels_per_point := by
  unfold processMsg
  repeat' split
  all_goals rfl

theorem topBar_questions (s : MyApp) (ev : Events) : (topBar s ev).questions = s.questions := by
  unfold topBar topBarDown topBarUp; split <;> split <;> rfl

theorem topBar_question_nr (s : MyApp) (ev : Events) :
    (topBar s ev).question_nr = s.question_nr := by
  unfold topBar topBarDown topBarUp; split <;> split <;> rfl

theorem topBar_prev (s : MyApp) (ev : Events) :
    (topBar s ev).prev_question_nr = s.prev_question_nr := by
  unfold topBar topBarDown topBarUp; split <;> split <;> rfl

theorem topBar_showFlags (s : MyApp) (ev : Events) :
    (topBar s ev).showFlags = s.showFlags := by
  unfold topBar topBarDown topBarUp; split <;> split <;> rfl

theorem topBar_noScale {ev : Events} (s : MyApp)
    (h1 : ev.scaleUp = false) (h2 : ev.scaleDown = false) : topBar s ev = s := by
  unfold topBar topBarDown topBarUp; rw [h1, h2]; rfl

theorem centralPanel_prev (s : MyApp) (ev : Events) :
    (centralPanel s ev).prev_question_nr = s.prev_question_nr := by
  unfold centralPanel
  split
  · split <;> rfl
  · rfl

theorem centralPanel_pixels (s : MyApp) (ev : Events) :
    (centralPanel s ev).pixels_per_point = s.pixels_per_point := by
  unfold centralPanel
  split
  · split <;> rfl
  · rfl

theorem centralPanel_questions (s : MyApp) (ev : Events) :
    (centralPanel s ev).questions = s.questions := by
  unfold centralPanel
  split
  · split <;> rfl
  · rfl

theorem centralPanel_noEvents (s : MyApp) : centralPanel s noEvents = s := by
  unfold centralPanel
  split
  · split <;> rfl
  · rfl

theorem centralPanel_out {s : MyApp} {qs : List Question} (ev : Events)
    (hq : s.questions = some qs) (hlen : qs.length ≤ s.question_nr) :
    centralPanel s ev = s := by
  unfold centralPanel
  simp only [hq, List.get?_eq_none.mpr hlen]

theorem centralPanel_showFlags_noToggles {ev : Events} (s : MyApp)
    (h1 : ev.toggleQuestion = false) (h2 : ev.toggleHint1 = false)
    (h3 : ev.toggleHint2 = false) (h4 : ev.toggleAnswer = false) :
    (centralPanel s ev).showFlags = s.showFlags := by
  unfold centralPanel
  split
  · split
    · simp [h1, h2, h3, h4]
    · rfl
  · rfl

theorem centralPanel_no_quiz {s : MyApp} (ev : Events) (hq : s.questions = none) :
    centralPanel s ev = s := by
  unfold centralPanel
  simp only [hq]

theorem centralPanel_prevClick {s : MyApp} {qs : List Question} {q : Question}
    (hq : s.questions = some qs) (hget : qs.get? s.question_nr = some q) :
    centralPanel s evPrev = { s with question_nr := satSub1 s.question_nr } := by
  unfold centralPanel
  simp only [hq, hget]
  rfl

/-- C2: with a quiz of length `len` loaded and the current index equal to
`len`, a redraw in which the increment-index control is clicked leaves the
index equal to `len`: the navigation controls are only rendered while the
index points at a valid element, so past the end the click cannot fire,
and the step is a total function (no panic). -/
theorem increment_at_end_keeps_index (s : MyApp) (qs : List Question)
    (hq : s.questions = some qs) (hn : s.question_nr = qs.length) :
    (redraw s none evNext).question_nr = qs.length := by
  unfold redraw
  rw [processMsg_none]
  have h1 : (topBar (syncIndex s) evNext).questions = some qs := by
    rw [topBar_questions, syncIndex_questions, hq]
  have h2 : (topBar (syncIndex s) evNext).question_nr = qs.length := by
    rw [topBar_question_nr, syncIndex_question_nr, hn]
  rw [centralPanel_out evNext h1 (le_of_eq h2.symm), h2]

theorem increment_at_end_keeps_index_w :
    (redraw appW none evNext).question_nr = 1 :=
  increment_at_end_keeps_index appW [qW] rfl rfl

/-- C7: with the current index equal to 0, a redraw in which the
decrement-index control is clicked leaves the index equal to 0:
`saturating_sub(1)` truncates at 0, and when no element is current the
control is not rendered at all. -/
theorem decrement_at_zero_keeps_index (s : MyApp) (h : s.question_nr = 0) :
    (redraw s none evPrev).question_nr = 0 := by
  unfold redraw
  rw [processMsg_none]
  have hnr : (topBar (syncIndex s) evPrev).question_nr = 0 := by
    rw [topBar_question_nr, syncIndex_question_nr, h]
  rcases hq : (topBar (syncIndex s) evPrev).questions with _ | qs
  · rw [centralPanel_no_quiz evPrev hq]
    exact hnr
  · rcases hget : qs.get? (topBar (syncIndex s) evPrev).question_nr with _ | q
    · rw [centralPanel_out evPrev hq (List.get?_eq_none.mp hget)]
      exact hnr
    · rw [centralPanel_prevClick hq hget]
      simp [satSub1, hnr]

theorem decrement_at_zero_keeps_index_w :
    (redraw appW0 none evPrev).question_nr = 0 :=
  decrement_at_zero_keeps_index appW0 rfl

/-- C4: whenever the current index differs from the previously recorded one
at the start of a redraw step, the step's index sync (src/app.rs lines
73-76) sets all four visibility flags to false and records the current
index as the previous index; over the whole step the recorded previous
index ends as the step's starting index, and the flags end all false
whenever no reveal toggle is clicked in the same frame. -/
theorem index_change_resets_flags (s : MyApp) (msg : Option Payload) (ev : Events)
    (h : s.question_nr ≠ s.prev_question_nr) :
    (syncIndex s).showFlags = showDefault ∧
    (syncIndex s).prev_question_nr = s.question_nr ∧
    (redraw s msg ev).prev_question_nr = s.question_nr ∧
    (ev.toggleQuestion = false → ev.toggleHint1 = false → ev.toggleHint2 = false →
      ev.toggleAnswer = false → (redraw s msg ev).showFlags = showDefault) := by
  have hs := syncIndex_of_ne h
  refine ⟨by rw [hs], by rw [hs], ?_, ?_⟩
  · unfold redraw
    rw [centralPanel_prev, topBar_prev, processMsg_prev, hs]
  · intro h1 h2 h3 h4
    unfold redraw
    rw [centralPanel_showFlags_noToggles _ h1 h2 h3 h4, topBar_showFlags,
      processMsg_showFlags, hs]

theorem index_change_resets_flags_w :
    (syncIndex appW1).showFlags = showDefault ∧
    (syncIndex appW1).prev_question_nr = appW1.question_nr ∧
    (redraw appW1 none noEvents).prev_question_nr = appW1.question_nr ∧
    (noEvents.toggleQuestion = false → noEvents.toggleHint1 = false →
      noEvents.toggleHint2 = false → noEvents.toggleAnswer = false →
      (redraw appW1 none noEvents).showFlags = showDefault) :=
  index_change_resets_flags appW1 none noEvents (by decide)

theorem decFrame_pixels (s : MyApp) :
    (decFrame s).pixels_per_point = max (s.pixels_per_point - 1/10) (1/10) := by
  unfold decFrame redraw
  rw [centralPanel_pixels, processMsg_none]
  unfold topBar topBarUp topBarDown evScaleDown
  simp [syncIndex_pixels]

/-- C6: in any state, after any positive number of scale-decrement frames
the display-scale factor is still at least the clamp minimum `0.1`, hence
strictly above the fixed positive floor `0.05`: each decrement subtracts
the step `0.1` but clamps with `max` at `0.1`. -/
theorem scale_never_at_or_below_floor (s : MyApp) (n : ℕ) (hn : 1 ≤ n) :
    1/20 < (decFrame^[n] s).pixels_per_point ∧
    1/10 ≤ (decFrame^[n] s).pixels_per_point := by
  have key : 1/10 ≤ (decFrame^[n] s).pixels_per_point := by
    obtain ⟨m, rfl⟩ : ∃ m, n = m + 1 := ⟨n - 1, (Nat.succ_pred_eq_of_pos hn).symm⟩
    rw [Function.iterate_succ_apply', decFrame_pixels]
    exact le_max_right _ _
  exact ⟨lt_of_lt_of_le (by norm_num) key, key⟩

theorem scale_never_at_or_below_floor_w :
    1/20 < (decFrame^[1] defaultMyApp).pixels_per_point ∧
    1/10 ≤ (decFrame^[1] defaultMyApp).pixels_per_point :=
  scale_never_at_or_below_floor defaultMyApp 1 (by decide)

/-- C8: on startup with a persisted record, every absent field is filled
with its default from `MyApp::default()` and the four visibility flags are
forced to all-false regardless of what was persisted; with no storage the
state is the default (which also has all flags false). -/
theorem startup_fills_defaults_and_hides_all (p : PersistedApp) :
    (myAppNew (some p)).showFlags = showDefault ∧
    (myAppNew (some p)).pixels_per_point = p.pixels_per_point.getD 4 ∧
    (myAppNew (some p)).questions = p.questions.getD none ∧
    (myAppNew (some p)).question_nr = p.question_nr.getD 0 ∧
    (myAppNew (some p)).prev_question_nr = p.prev_question_nr.getD 0 ∧
    myAppNew none = defaultMyApp :=
  ⟨rfl, rfl, rfl, rfl, rfl, rfl⟩

/-- C10: accepting a delivered non-empty quiz assigns exactly the stored
question list and the current index (to 0) within the redraw step; that
assignment leaves the recorded previous index, the visibility flags and
the display scale untouched. -/
theorem accept_assigns_only_quiz_and_index (s : MyApp) (p : Payload) (qs : List Question)
    (hp : parsePayload p = some qs) (hlen : 1 ≤ qs.length) :
    processMsg s (some p) = { s with questions := some qs, question_nr := 0 } ∧
    (processMsg s (some p)).prev_question_nr = s.prev_question_nr ∧
    (processMsg s (some p)).showFlags = s.showFlags ∧
    (processMsg s (some p)).pixels_per_point = s.pixels_per_point :=
  ⟨processMsg_accepted s hp hlen, processMsg_prev s (some p),
   processMsg_showFlags s (some p), processMsg_pixels s (some p)⟩

theorem accept_assigns_only_quiz_and_index_w :
    processMsg defaultMyApp (some payloadW) =
      { defaultMyApp with questions := some quizW, question_nr := 0 } ∧
    (processMsg defaultMyApp (some payloadW)).prev_question_nr = defaultMyApp.prev_question_nr ∧
    (processMsg defaultMyApp (some payloadW)).showFlags = defaultMyApp.showFlags ∧
    (processMsg defaultMyApp (some payloadW)).pixels_per_point = defaultMyApp.pixels_per_point :=
  accept_assigns_only_quiz_and_index defaultMyApp payloadW quizW rfl (by decide)

/-- C1 counterexample: a well-formed non-empty payload delivered while the
index is 0 and already recorded as previous, with the answer revealed,
replaces the quiz and rewinds the index, but the answer flag stays true:
the accepting branch never touches the visibility flags, and the index
sync does not fire because the index did not change. -/
theorem load_does_not_reset_flags :
    parsePayload payloadW = some quizW ∧
    1 ≤ quizW.length ∧
    (redraw c1State (some payloadW) noEvents).questions = some quizW ∧
    (redraw c1State (some payloadW) noEvents).question_nr = 0 ∧
    (redraw c1State (some payloadW) noEvents).showFlags.answer = true := by
  refine ⟨rfl, by decide, ?_, ?_, ?_⟩ <;> decide

/-- C1 as amended: after the redraw step that accepts a delivered payload
parsing to a non-empty list `qs`, the stored list equals `qs` and the
index equals 0; the visibility flags are whatever the step's index sync
left (all false if the index differed from the recorded previous index,
their prior values otherwise) — the acceptance itself does not reset
them. -/
theorem load_sets_quiz_and_index (s : MyApp) (p : Payload) (qs : List Question)
    (hp : parsePayload p = some qs) (hlen : 1 ≤ qs.length) :
    (redraw s (some p) noEvents).questions = some qs ∧
    (redraw s (some p) noEvents).question_nr = 0 ∧
    (redraw s (some p) noEvents).showFlags = (syncIndex s).showFlags := by
  unfold redraw
  rw [processMsg_accepted _ hp hlen, topBar_noScale _ rfl rfl, centralPanel_noEvents]
  exact ⟨rfl, rfl, rfl⟩

theorem load_sets_quiz_and_index_w :
    (redraw appW0 (some payloadW) noEvents).questions = some quizW ∧
    (redraw appW0 (some payloadW) noEvents).question_nr = 0 ∧
    (redraw appW0 (some payloadW) noEvents).showFlags = (syncIndex appW0).showFlags :=
  load_sets_quiz_and_index appW0 payloadW quizW rfl (by decide)

/-- C3 counterexample: an empty-list payload delivered at the start of a
redraw step whose index moved since the previous frame: the payload is
ignored (list and index keep their values), but the step still resets the
four visibility flags — the prior state is not entirely unchanged. -/
theorem empty_payload_step_changes_flags :
    parsePayload emptyPayload = some [] ∧
    c3State.showFlags.question = true ∧
    (redraw c3State (some emptyPayload) noEvents).questions = c3State.questions ∧
    (redraw c3State (some emptyPayload) noEvents).question_nr = c3State.question_nr ∧
    (redraw c3State (some emptyPayload) noEvents).showFlags.question = false := by
  refine ⟨rfl, rfl, ?_, ?_, ?_⟩ <;> decide

/-- C3 as amended: a malformed or empty delivered payload is itself a
no-op: the message-processing phase returns the state unchanged, and the
whole redraw step equals the same step with no delivery at all; in
particular when the index equals the recorded previous index (so the
index sync does not fire) an interaction-free redraw leaves the state —
list, index and flags — exactly unchanged. -/
theorem rejected_payload_leaves_state (s : MyApp) (p : Payload) (ev : Events)
    (h : ∀ qs, parsePayload p = some qs → qs.length = 0) :
    processMsg s (some p) = s ∧
    redraw s (some p) ev = redraw s none ev ∧
    (s.question_nr = s.prev_question_nr → redraw s (some p) noEvents = s) := by
  have key : ∀ t : MyApp, processMsg t (some p) = t := by
    intro t
    rcases hp : parsePayload p with _ | qs
    · exact processMsg_parse_none t hp
    · have hnil : qs = [] := List.length_eq_zero.mp (h qs hp)
      subst hnil
      exact processMsg_parse_nil t hp
  refine ⟨key s, ?_, ?_⟩
  · unfold redraw
    rw [key, processMsg_none]
  · intro hsync
    unfold redraw
    rw [key, syncIndex_of_eq hsync, topBar_noScale _ rfl rfl, centralPanel_noEvents]

theorem rejected_payload_leaves_state_w :
    processMsg appW0 (some Payload.invalid) = appW0 ∧
    redraw appW0 (some Payload.invalid) noEvents = redraw appW0 none noEvents ∧
    (appW0.question_nr = appW0.prev_question_nr →
      redraw appW0 (some Payload.invalid) noEvents = appW0) :=
  rejected_payload_leaves_state appW0 Payload.invalid noEvents
    (fun _ h => Option.noConfusion h)

theorem centralPanel_toggleQ {s : MyApp} {qs : List Question} {q : Question}
    (hq : s.questions = some qs) (hget : qs.get? s.question_nr = some q) :
    centralPanel s evToggleQ =
      { s with showFlags := { s.showFlags with question := !s.showFlags.question } } := by
  unfold centralPanel
  simp only [hq, hget]
  rfl

theorem centralPanel_toggleH1 {s : MyApp} {qs : List Question} {q : Question}
    (hq : s.questions = some qs) (hget : qs.get? s.question_nr = some q) :
    centralPanel s evToggleH1 =
      { s with showFlags := { s.showFlags with hint1 := !s.showFlags.hint1 } } := by
  unfold centralPanel
  simp only [hq, hget]
  rfl

theorem centralPanel_toggleH2 {s : MyApp} {qs : List Question} {q : Question}
    (hq : s.questions = some qs) (hget : qs.get? s.question_nr = some q) :
    centralPanel s evToggleH2 =
      { s with showFlags := { s.showFlags with hint2 := !s.showFlags.hint2 } } := by
  unfold centralPanel
  simp only [hq, hget]
  rfl

theorem centralPanel_toggleA {s : MyApp} {qs : List Question} {q : Question}
    (hq : s.questions = some qs) (hget : qs.get? s.question_nr = some q) :
    centralPanel s evToggleA =
      { s with showFlags := { s.showFlags with answer := !s.showFlags.answer } } := by
  unfold centralPanel
  simp only [hq, hget]
  rfl

theorem currentQuestion_elim {s : MyApp} {q : Question} (hq : currentQuestion s = some q) :
    ∃ qs, s.questions = some qs ∧ qs.get? s.question_nr = some q := by
  unfold currentQuestion at hq
  rcases hqq : s.questions with _ | qs
  · rw [hqq] at hq
    simp at hq
  · rw [hqq] at hq
    exact ⟨qs, rfl, hq⟩

theorem redraw_toggleQ {s : MyApp} {q : Question}
    (hsync : s.question_nr = s.prev_question_nr) (hq : currentQuestion s = some q) :
    redraw s none evToggleQ =
      { s with showFlags := { s.showFlags with question := !s.showFlags.question } } := by
  obtain ⟨qs, hqs, hget⟩ := currentQuestion_elim hq
  unfold redraw
  rw [processMsg_none, syncIndex_of_eq hsync, topBar_noScale _ rfl rfl,
    centralPanel_toggleQ hqs hget]

theorem redraw_toggleH1 {s : MyApp} {q : Question}
    (hsync : s.question_nr = s.prev_question_nr) (hq : currentQuestion s = some q) :
    redraw s none evToggleH1 =
      { s with showFlags := { s.showFlags with hint1 := !s.showFlags.hint1 } } := by
  obtain ⟨qs, hqs, hget⟩ := currentQuestion_elim hq
  unfold redraw
  rw [processMsg_none, syncIndex_of_eq hsync, topBar_noScale _ rfl rfl,
    centralPanel_toggleH1 hqs hget]

theorem redraw_toggleH2 {s : MyApp} {q : Question}
    (hsync : s.question_nr = s.prev_question_nr) (hq : currentQuestion s = some q) :
    redraw s none evToggleH2 =
      { s with showFlags := { s.showFlags with hint2 := !s.showFlags.hint2 } } := by
  obtain ⟨qs, hqs, hget⟩ := currentQuestion_elim hq
  unfold redraw
  rw [processMsg_none, syncIndex_of_eq hsync, topBar_noScale _ rfl rfl,
    centralPanel_toggleH2 hqs hget]

theorem redraw_toggleA {s : MyApp} {q : Question}
    (hsync : s.question_nr = s.prev_question_nr) (hq : currentQuestion s = some q) :
    redraw s none evToggleA =
      { s with showFlags := { s.showFlags with answer := !s.showFlags.answer } } := by
  obtain ⟨qs, hqs, hget⟩ := currentQuestion_elim hq
  unfold redraw
  rw [processMsg_none, syncIndex_of_eq hsync, topBar_noScale _ rfl rfl,
    centralPanel_toggleA hqs hget]

/-- C9: with a record current and the index already recorded as previous,
each reveal toggle's frame flips exactly its own visibility flag (so a
second identical frame restores all flags), and each row displays the
field's text exactly when its flag is true, the empty placeholder
otherwise. -/
theorem toggles_flip_own_flag_and_rows_display (s : MyApp) (q : Question)
    (hsync : s.question_nr = s.prev_question_nr) (hq : currentQuestion s = some q) :
    (redraw s none evToggleQ =
      { s with showFlags := { s.showFlags with question := !s.showFlags.question } }) ∧
    (redraw s none evToggleH1 =
      { s with showFlags := { s.showFlags with hint1 := !s.showFlags.hint1 } }) ∧
    (redraw s none evToggleH2 =
      { s with showFlags := { s.showFlags with hint2 := !s.showFlags.hint2 } }) ∧
    (redraw s none evToggleA =
      { s with showFlags := { s.showFlags with answer := !s.showFlags.answer } }) ∧
    (redraw (redraw s none evToggleQ) none evToggleQ).showFlags = s.showFlags ∧
    (redraw (redraw s none evToggleH1) none evToggleH1).showFlags = s.showFlags ∧
    (redraw (redraw s none evToggleH2) none evToggleH2).showFlags = s.showFlags ∧
    (redraw (redraw s none evToggleA) none evToggleA).showFlags = s.showFlags ∧
    displayedQuestion s = some (if s.showFlags.question then q.question else "") ∧
    displayedHint1 s = some (if s.showFlags.hint1 then q.hint1 else "") ∧
    displayedHint2 s = some (if s.showFlags.hint2 then q.hint2 else "") ∧
    displayedAnswer s = some (if s.showFlags.answer then q.answer else "") := by
  have hQ := redraw_toggleQ hsync hq
  have hH1 := redraw_toggleH1 hsync hq
  have hH2 := redraw_toggleH2 hsync hq
  have hA := redraw_toggleA hsync hq
  have hQ2 := redraw_toggleQ
    (s := { s with showFlags := { s.showFlags with question := !s.showFlags.question } })
    (q := q) hsync hq
  have hH12 := redraw_toggleH1
    (s := { s with showFlags := { s.showFlags with hint1 := !s.showFlags.hint1 } })
    (q := q) hsync hq
  have hH22 := redraw_toggleH2
    (s := { s with showFlags := { s.showFlags with hint2 := !s.showFlags.hint2 } })
    (q := q) hsync hq
  have hA2 := redraw_toggleA
    (s := { s with showFlags := { s.showFlags with answer := !s.showFlags.answer } })
    (q := q) hsync hq
  refine ⟨hQ, hH1, hH2, hA, ?_, ?_, ?_, ?_, ?_, ?_, ?_, ?_⟩
  · rw [hQ, hQ2]; simp
  · rw [hH1, hH12]; simp
  · rw [hH2, hH22]; simp
  · rw [hA, hA2]; simp
  · simp [displayedQuestion, hq]
  · simp [displayedHint1, hq]
  · simp [displayedHint2, hq]
  · simp [displayedAnswer, hq]

theorem toggles_flip_own_flag_and_rows_display_w :
    (redraw appW0 none evToggleQ =
      { appW0 with showFlags := { appW0.showFlags with question := !appW0.showFlags.question } }) ∧
    (redraw appW0 none evToggleH1 =
      { appW0 with showFlags := { appW0.showFlags with hint1 := !appW0.showFlags.hint1 } }) ∧
    (redraw appW0 none evToggleH2 =
      { appW0 with showFlags := { appW0.showFlags with hint2 := !appW0.showFlags.hint2 } }) ∧
    (redraw appW0 none evToggleA =
      { appW0 with showFlags := { appW0.showFlags with answer := !appW0.showFlags.answer } }) ∧
    (redraw (redraw appW0 none evToggleQ) none evToggleQ).showFlags = appW0.showFlags ∧
    (redraw (redraw appW0 none evToggleH1) none evToggleH1).showFlags = appW0.showFlags ∧
    (redraw (redraw appW0 none evToggleH2) none evToggleH2).showFlags = appW0.showFlags ∧
    (redraw (redraw appW0 none evToggleA) none evToggleA).showFlags = appW0.showFlags ∧
    displayedQuestion appW0 = some (if appW0.showFlags.question then qW.question else "") ∧
    displayedHint1 appW0 = some (if appW0.showFlags.hint1 then qW.hint1 else "") ∧
    displayedHint2 appW0 = some (if appW0.showFlags.hint2 then qW.hint2 else "") ∧
    displayedAnswer appW0 = some (if appW0.showFlags.answer then qW.answer else "") :=
  toggles_flip_own_flag_and_rows_display appW0 qW rfl rfl

/-! ## Characterising the deserializer -/

theorem needName_nil (cur : Option String) : needName cur [] = cur.isSome := by
  cases cur <;> rfl

theorem needName_some (s : String) (l : List Json) :
    needName (some s) l = l.isEmpty := rfl

theorem needName_none_cons (v : Json) (l : List Json) :
    needName none (v :: l) = (isStr v && l.isEmpty) := by
  cases v <;> cases l <;> rfl

theorem fieldValues_cons_eq {kv : String × Json} {rest : List (String × Json)} {name : String}
    (h : kv.1 = name) : fieldValues (kv :: rest) name = kv.2 :: fieldValues rest name := by
  simp [fieldValues, List.filter_cons, h]

theorem fieldValues_cons_ne {kv : String × Json} {rest : List (String × Json)} {name : String}
    (h : ¬ kv.1 = name) : fieldValues (kv :: rest) name = fieldValues rest name := by
  simp [fieldValues, List.filter_cons, h]

theorem foldKVs_char (kvs : List (String × Json)) : ∀ acc : QAcc,
    (match foldKVs acc kvs with
     | some acc2 => acc2.question.isSome && acc2.hint1.isSome &&
                    acc2.hint2.isSome && acc2.answer.isSome
     | none => false) =
    (needName acc.question (fieldValues kvs "question") &&
     needName acc.hint1 (fieldValues kvs "hint1") &&
     needName acc.hint2 (fieldValues kvs "hint2") &&
     needName acc.answer (fieldValues kvs "answer")) := by
  induction kvs with
  | nil =>
    intro acc
    simp [foldKVs, fieldValues, needName_nil]
  | cons kv rest ih =>
    intro acc
    obtain ⟨k, v⟩ := kv
    by_cases h1 : k = "question"
    · subst h1
      rw [fieldValues_cons_eq rfl,
        fieldValues_cons_ne (show ¬ ("question" : String) = "hint1" by decide),
        fieldValues_cons_ne (show ¬ ("question" : String) = "hint2" by decide),
        fieldValues_cons_ne (show ¬ ("question" : String) = "answer" by decide)]
      rcases hacc : acc.question with _ | s0
      · cases v <;>
          simp [foldKVs, stepKV, hacc, needName_none_cons, needName_some, isStr, ih]
      · cases v <;>
          simp [foldKVs, stepKV, hacc, needName_some, isStr]
    · by_cases h2 : k = "hint1"
      · subst h2
        rw [fieldValues_cons_eq rfl,
          fieldValues_cons_ne (show ¬ ("hint1" : String) = "question" by decide),
          fieldValues_cons_ne (show ¬ ("hint1" : String) = "hint2" by decide),
          fieldValues_cons_ne (show ¬ ("hint1" : String) = "answer" by decide)]
        rcases hacc : acc.hint1 with _ | s0
        · cases v <;>
            simp [foldKVs, stepKV, hacc, needName_none_cons, needName_some, isStr, ih]
        · cases v <;>
            simp [foldKVs, stepKV, hacc, needName_some, isStr]
      · by_cases h3 : k = "hint2"
        · subst h3
          rw [fieldValues_cons_eq rfl,
            fieldValues_cons_ne (show ¬ ("hint2" : String) = "question" by decide),
            fieldValues_cons_ne (show ¬ ("hint2" : String) = "hint1" by decide),
            fieldValues_cons_ne (show ¬ ("hint2" : String) = "answer" by decide)]
          rcases hacc : acc.hint2 with _ | s0
          · cases v <;>
              simp [foldKVs, stepKV, hacc, needName_none_cons, needName_some, isStr, ih]
          · cases v <;>
              simp [foldKVs, stepKV, hacc, needName_some, isStr]
        · by_cases h4 : k = "answer"
          · subst h4
            rw [fieldValues_cons_eq rfl,
              fieldValues_cons_ne (show ¬ ("answer" : String) = "question" by decide),
              fieldValues_cons_ne (show ¬ ("answer" : String) = "hint1" by decide),
              fieldValues_cons_ne (show ¬ ("answer" : String) = "hint2" by decide)]
            rcases hacc : acc.answer with _ | s0
            · cases v <;>
                simp [foldKVs, stepKV, hacc, needName_none_cons, needName_some, isStr, ih]
            · cases v <;>
                simp [foldKVs, stepKV, hacc, needName_some, isStr]
          · rw [fieldValues_cons_ne h1, fieldValues_cons_ne h2,
              fieldValues_cons_ne h3, fieldValues_cons_ne h4]
            simp only [foldKVs, stepKV, if_neg h1, if_neg h2, if_neg h3, if_neg h4]
            exact ih acc

theorem exactlyOneText_eq (kvs : List (String × Json)) (name : String) :
    exactlyOneText kvs name = needName none (fieldValues kvs name) := by
  rcases h : fieldValues kvs name with _ | ⟨v, _ | ⟨w, t⟩⟩ <;>
    simp [exactlyOneText, needName, h]

theorem parseQuestion_obj_isSome (kvs : List (String × Json)) :
    (parseQuestion (Json.obj kvs)).isSome =
      (needName none (fieldValues kvs "question") &&
       needName none (fieldValues kvs "hint1") &&
       needName none (fieldValues kvs "hint2") &&
       needName none (fieldValues kvs "answer")) := by
  have h := foldKVs_char kvs {}
  rcases hf : foldKVs {} kvs with _ | acc2
  · rw [hf] at h
    simp only [parseQuestion, hf]
    simpa using h
  · rw [hf] at h
    obtain ⟨oq, oh1, oh2, oa⟩ := acc2
    simp only [parseQuestion, hf]
    cases oq <;> cases oh1 <;> cases oh2 <;> cases oa <;> simp_all

theorem strField_isSome (v : Json) : (strField v).isSome = isStr v := by
  cases v <;> rfl

theorem parseSeq_isSome (vs : List Json) :
    (parseSeq vs).isSome = (decide (vs.length = 4) && vs.all isStr) := by
  rcases vs with _ | ⟨a, _ | ⟨b, _ | ⟨c, _ | ⟨d, _ | ⟨e, t⟩⟩⟩⟩⟩
  · rfl
  · rfl
  · rfl
  · rfl
  · rcases ha : strField a with _ | qa <;> rcases hb : strField b with _ | qb <;>
      rcases hc : strField c with _ | qc <;> rcases hd : strField d with _ | qd <;>
      simp [parseSeq, ha, hb, hc, hd, ← strField_isSome]
  · rfl

theorem parseQuestion_isSome (r : Json) : (parseQuestion r).isSome = recordShape r := by
  cases r with
  | obj kvs =>
    rw [parseQuestion_obj_isSome]
    simp [recordShape, exactlyOneText_eq]
  | arr vs =>
    simp only [parseQuestion, recordShape]
    exact parseSeq_isSome vs
  | null => rfl
  | bool b => rfl
  | num n => rfl
  | str s => rfl

theorem parseQuestionList_length {xs : List Json} {qs : List Question}
    (h : parseQuestionList xs = some qs) : qs.length = xs.length := by
  induction xs generalizing qs with
  | nil =>
    simp [parseQuestionList] at h
    subst h
    rfl
  | cons x xs ih =>
    unfold parseQuestionList at h
    rcases hx : parseQuestion x with _ | q
    · rw [hx] at h
      simp at h
    · rw [hx] at h
      rcases hxs : parseQuestionList xs with _ | qs'
      · rw [hxs] at h
        simp at h
      · rw [hxs] at h
        simp at h
        subst h
        simp [ih hxs]

theorem parseQuestionList_isSome (xs : List Json) :
    (parseQuestionList xs).isSome = xs.all (fun r => (parseQuestion r).isSome) := by
  induction xs with
  | nil => rfl
  | cons x xs ih =>
    unfold parseQuestionList
    rw [List.all_cons, ← ih]
    rcases hx : parseQuestion x with _ | q <;>
      rcases hxs : parseQuestionList xs with _ | qs' <;> simp [hx, hxs]

/-- C5 counterexample: a payload whose single record carries the four named
text fields plus a field of another name is accepted (serde ignores
unknown fields: `Question` has no `deny_unknown_fields`), while the claim
says such a payload is rejected. -/
theorem extra_field_payload_accepted :
    acceptsQuiz extraFieldJson = true ∧
    parseQuiz extraFieldJson = some [⟨"Q", "H1", "H2", "A"⟩] ∧
    processMsg defaultMyApp (some (Payload.json extraFieldJson)) ≠ defaultMyApp := by
  refine ⟨rfl, rfl, ?_⟩
  decide

/-- C5 as amended: a delivered payload is accepted as a quiz exactly when
it is a serialized list, with at least one element, of records each
carrying the four named text fields `question`, `hint1`, `hint2`,
`answer` exactly once with a text value — a record missing one of these
fields, repeating one, or carrying a non-text value for one is rejected,
while fields with other names are ignored, and a record may equivalently
be given as a list of exactly four texts in field order. -/
theorem acceptance_iff_shape (j : Json) : acceptsQuiz j = quizShape j := by
  cases j with
  | arr xs =>
    unfold acceptsQuiz quizShape
    simp only [parseQuiz]
    have hall : (fun r => (parseQuestion r).isSome) = recordShape :=
      funext parseQuestion_isSome
    have hsome := parseQuestionList_isSome xs
    rw [hall] at hsome
    rcases hp : parseQuestionList xs with _ | qs
    · rw [hp] at hsome
      simp [← hsome]
    · rw [hp] at hsome
      have hlen := parseQuestionList_length hp
      simp [← hsome, hlen]
  | null => rfl
  | bool b => rfl
  | num n => rfl
  | str s => rfl
  | obj kvs => rfl
